import Mathlib

/-!
Shallow embedding of `src/lib/GridItem.jsx` (react-grid-layout-19): the
interaction controller for one movable, resizable grid item.

Pixel quantities are modelled as rationals (`ℚ`), grid units as integers
(`ℤ`).  The six host callbacks are modelled by registration flags on the
props; a handler's outgoing notification is returned as an `Option` value
(`none` when the callback is absent or the handler bails out early).  The
JavaScript `throw` in `onDrag` / `onDragStop` is modelled with
`Except String`.

The helper modules `calculateUtils` and `utils` are imported by
`GridItem.jsx` but are not part of the sources at hand; the definitions
below that come from them are modelled from the spec (each such definition
says so in its doc comment).
-/

namespace GridItem19

/-- Pixel offset pair, `PartialPosition` of GridItem.jsx: `{left, top}`. -/
structure PartialPosition where
  left : ℚ
  top : ℚ
deriving DecidableEq

/-- Pixel box, `Position` of the utils module: `{left, top, width, height}`. -/
structure Position where
  left : ℚ
  top : ℚ
  width : ℚ
  height : ℚ
deriving DecidableEq

/-- Proposed size delivered by the resize gesture layer: `{width, height}`. -/
structure Size where
  width : ℚ
  height : ℚ
deriving DecidableEq

/-- Compass token naming the dragged resize handle. -/
inductive ResizeHandleAxis where
  | s | w | e | n | sw | nw | se | ne
deriving DecidableEq

/-- Externally supplied dropping position (the raw event field is dropped
from the model: the controller only forwards it). -/
structure DroppingPosition where
  left : ℚ
  top : ℚ
deriving DecidableEq

/-- Geometry of the positioned ancestor (`node.offsetParent`): its bounding
client rect corner, its scroll offsets, and its client height. -/
structure OffsetParent where
  rectLeft : ℚ
  rectTop : ℚ
  scrollLeft : ℚ
  scrollTop : ℚ
  clientHeight : ℚ
deriving DecidableEq

/-- The DOM node handed to the drag handlers: its bounding client rect
corner and its (possibly missing) positioned ancestor. -/
structure DomNode where
  offsetParent : Option OffsetParent
  rectLeft : ℚ
  rectTop : ℚ
deriving DecidableEq

/-- Props of `GridItem`.  Callback slots become registration flags; a grid
size bound of `none` encodes the JavaScript `Infinity` (unbounded). -/
structure Props where
  i : String
  x : ℤ
  y : ℤ
  w : ℤ
  h : ℤ
  minW : ℤ
  minH : ℤ
  maxW : Option ℤ
  maxH : Option ℤ
  cols : ℚ
  containerWidth : ℚ
  rowHeight : ℚ
  margin : ℚ × ℚ
  containerPadding : ℚ × ℚ
  maxRows : ℚ
  isBounded : Bool
  transformScale : ℚ
  droppingPosition : Option DroppingPosition
  hasOnDragStart : Bool
  hasOnDrag : Bool
  hasOnDragStop : Bool
  hasOnResizeStart : Bool
  hasOnResize : Bool
  hasOnResizeStop : Bool
deriving DecidableEq

/-- Mutable instance state of a `GridItem`: `this.dragging`,
`this.dragPosition`, `this.resizing` (null, or the live corrected box used
as the render-time resize override), and `this.resizePosition`. -/
structure GridItemState where
  dragging : Bool
  dragPosition : PartialPosition
  resizing : Option Position
  resizePosition : Position
deriving DecidableEq

/-- Numeric fields of `GridItem.defaultProps` (GridItem.jsx lines 119-128);
`none` encodes `Infinity`. -/
structure DefaultProps where
  minH : ℤ
  minW : ℤ
  maxH : Option ℤ
  maxW : Option ℤ
  transformScale : ℚ
deriving DecidableEq

/-- Values of `GridItem.defaultProps`: `minH: 1, minW: 1, maxH: Infinity,
maxW: Infinity, transformScale: 1`. -/
def defaultProps : DefaultProps :=
  { minH := 1, minW := 1, maxH := none, maxW := none, transformScale := 1 }

/-- Modelled from the spec: `clamp(value, min, max)` of `calculateUtils`
(not among the sources), the standard clamp; when the bounds are ordered it
is the value capped into `[min, max]`, and the lower bound wins when they
are not. -/
def clamp (num lowerBound upperBound : ℚ) : ℚ :=
  max (min num upperBound) lowerBound

/-- Modelled from the spec: column width formula of `calculateUtils` (not
among the sources), `(containerWidthPx − marginPx.x*(columnCount−1) −
containerPaddingPx.x*2) / columnCount`. -/
def calcGridColWidth (p : Props) : ℚ :=
  (p.containerWidth - p.margin.1 * (p.cols - 1) - p.containerPadding.1 * 2) / p.cols

/-- Modelled from the spec: pixel extent of a span of grid units
(`calcGridItemWHPx` of `calculateUtils`, not among the sources):
`w*columnWidth + (w−1)*marginPx`. -/
def calcGridItemWHPx (gridUnits : ℤ) (colOrRowSize marginPx : ℚ) : ℚ :=
  gridUnits * colOrRowSize + (gridUnits - 1) * marginPx

/-- Modelled from the spec: `pixelToGrid` (`calcXY` of `calculateUtils`,
not among the sources), the inverse of the placement formulas `left =
x*(columnWidth+marginPx.x)` and `top = y*(rowHeightPx+marginPx.y)`,
rounding to the nearest integer grid cell.  The hole `w`/`h` arguments of
the source call are kept but the spec gives them no role in the result. -/
def calcXY (p : Props) (top left : ℚ) (w h : ℤ) : ℤ × ℤ :=
  let _ := w
  let _ := h
  (round (left / (calcGridColWidth p + p.margin.1)),
   round (top / (p.rowHeight + p.margin.2)))

/-- Modelled from the spec: `sizePixelToGrid` (`calcWH` of
`calculateUtils`, not among the sources), the inverse of the size formula
`width = w*columnWidth + (w−1)*marginPx.x`, rounding to the nearest integer
cell count.  The spec's handle-direction-aware rounding refinement is
under-specified, so the handle (and the `x`/`y` arguments of the source
call) are carried but unused. -/
def calcWH (p : Props) (width height : ℚ) (x y : ℤ) (handle : ResizeHandleAxis) :
    ℤ × ℤ :=
  let _ := x
  let _ := y
  let _ := handle
  (round ((width + p.margin.1) / (calcGridColWidth p + p.margin.1)),
   round ((height + p.margin.2) / (p.rowHeight + p.margin.2)))

/-- Handles whose mobile horizontal edge is the left one. -/
def isWestish : ResizeHandleAxis → Bool
  | .w | .nw | .sw => true
  | _ => false

/-- Handles whose mobile vertical edge is the top one. -/
def isNorthish : ResizeHandleAxis → Bool
  | .n | .ne | .nw => true
  | _ => false

/-- Modelled from the spec: the Resize Direction Resolver
(`resizeItemInDirection` of `utils`, not among the sources).  East-ish
handles keep the left edge fixed and take the proposed width; west-ish
handles move the left edge to keep the right edge fixed, clamping the new
left at 0 and the width so that `left + width` stays within the container;
north/south mirror this vertically with no container bound. -/
def resizeItemInDirection (handle : ResizeHandleAxis) (anchor : Position)
    (proposed : Size) (containerWidth : ℚ) : Position :=
  let hPart : ℚ × ℚ :=
    if isWestish handle then
      let l := max 0 (anchor.left + anchor.width - proposed.width)
      (l, min proposed.width (containerWidth - l))
    else (anchor.left, proposed.width)
  let vPart : ℚ × ℚ :=
    if isNorthish handle then
      (max 0 (anchor.top + anchor.height - proposed.height), proposed.height)
    else (anchor.top, proposed.height)
  { left := hPart.1, top := vPart.1, width := hPart.2, height := vPart.2 }

/-- Payload of a drag notification: `(itemId, gridX, gridY, {newPosition})`
(the raw event and the node reference are dropped from the model). -/
structure DragNotification where
  i : String
  x : ℤ
  y : ℤ
  newPosition : PartialPosition
deriving DecidableEq

/-- The `updatedSize` value flowing through `onResizeHandler`: either the
gesture layer's raw proposed size (node reference absent) or the
direction-corrected pixel box returned by the resolver (node present). -/
inductive UpdatedSize where
  | raw : Size → UpdatedSize
  | corrected : Position → UpdatedSize
deriving DecidableEq

/-- Width of an `updatedSize` value. -/
def UpdatedSize.width : UpdatedSize → ℚ
  | .raw s => s.width
  | .corrected b => b.width

/-- Height of an `updatedSize` value. -/
def UpdatedSize.height : UpdatedSize → ℚ
  | .raw s => s.height
  | .corrected b => b.height

/-- Payload of a resize notification: `(itemId, w, h, {size, handle})`. -/
structure ResizeNotification where
  i : String
  w : ℤ
  h : ℤ
  size : UpdatedSize
  handle : ResizeHandleAxis
deriving DecidableEq

/-- Which of the three resize handlers fired. -/
inductive HandlerName where
  | onResizeStart | onResize | onResizeStop
deriving DecidableEq

/-- The registration flag `this.props[handlerName]` for a resize handler. -/
def registered (p : Props) : HandlerName → Bool
  | .onResizeStart => p.hasOnResizeStart
  | .onResize => p.hasOnResize
  | .onResizeStop => p.hasOnResizeStop

/-- Grid-unit clamp with a possibly unbounded (`none` = `Infinity`) upper
bound, as `clamp(w, lower, upper)` behaves on such values in the source. -/
def clampSize (v lowerBound : ℤ) (upperBound : Option ℤ) : ℤ :=
  max (match upperBound with | none => v | some ub => min v ub) lowerBound

/-- Embedding of `onDragStart` (GridItem.jsx lines 331-365): bail out when
the callback is absent or the node has no positioned ancestor; otherwise
read the rendered offset relative to the ancestor (scaled rects plus the
ancestor's scroll offsets), store it, set `dragging`, and notify. -/
def onDragStart (p : Props) (st : GridItemState) (node : DomNode) :
    Except String (GridItemState × Option DragNotification) :=
  if !p.hasOnDragStart then .ok (st, none)
  else
    match node.offsetParent with
    | none => .ok (st, none)
    | some op =>
      let newLeft := node.rectLeft / p.transformScale - op.rectLeft / p.transformScale +
        op.scrollLeft
      let newTop := node.rectTop / p.transformScale - op.rectTop / p.transformScale +
        op.scrollTop
      let newPosition : PartialPosition := { left := newLeft, top := newTop }
      let st1 := { st with dragPosition := newPosition, dragging := true }
      let xy := calcXY p newTop newLeft p.w p.h
      .ok (st1, some { i := p.i, x := xy.1, y := xy.2, newPosition := newPosition })

/-- Embedding of `onDrag` (GridItem.jsx lines 372-414): bail out silently
when the callback is absent; raise the invalid-sequence error when not
dragging; accumulate the deltas, apply the bounded-mode clamp when an
ancestor is resolvable, store the result, and notify. -/
def onDrag (p : Props) (st : GridItemState) (node : DomNode) (deltaX deltaY : ℚ) :
    Except String (GridItemState × Option DragNotification) :=
  if !p.hasOnDrag then .ok (st, none)
  else if !st.dragging then .error "onDrag called before onDragStart."
  else
    let top0 := st.dragPosition.top + deltaY
    let left0 := st.dragPosition.left + deltaX
    let tl : ℚ × ℚ :=
      if p.isBounded then
        match node.offsetParent with
        | some op =>
          let bottomBoundary :=
            op.clientHeight - calcGridItemWHPx p.h p.rowHeight p.margin.2
          let top1 := clamp (top0 - p.containerPadding.2) 0 bottomBoundary
          let colWidth := calcGridColWidth p
          let rightBoundary :=
            p.containerWidth - calcGridItemWHPx p.w colWidth p.margin.1
          let left1 := clamp (left0 - p.containerPadding.1) 0 rightBoundary
          (top1, left1)
        | none => (top0, left0)
      else (top0, left0)
    let newPosition : PartialPosition := { left := tl.2, top := tl.1 }
    let st1 := { st with dragPosition := newPosition }
    let xy := calcXY p tl.1 tl.2 p.w p.h
    .ok (st1, some { i := p.i, x := xy.1, y := xy.2, newPosition := newPosition })

/-- Embedding of `onDragStop` (GridItem.jsx lines 421-441): bail out
silently when the callback is absent; raise the invalid-sequence error when
not dragging; otherwise notify with the last accumulated position and reset
the accumulator to idle and `{left: 0, top: 0}`. -/
def onDragStop (p : Props) (st : GridItemState) (node : DomNode) :
    Except String (GridItemState × Option DragNotification) :=
  let _ := node
  if !p.hasOnDragStop then .ok (st, none)
  else if !st.dragging then .error "onDragEnd called before onDragStart."
  else
    let newPosition := st.dragPosition
    let st1 := { st with dragging := false, dragPosition := { left := 0, top := 0 } }
    let xy := calcXY p newPosition.top newPosition.left p.w p.h
    .ok (st1, some { i := p.i, x := xy.1, y := xy.2, newPosition := newPosition })

/-- Embedding of `onResizeHandler` (GridItem.jsx lines 462-503): bail out
when the named callback is absent; with a node reference, run the direction
resolver and update the live resize override (cleared on `onResizeStop`);
without one, keep the raw size and leave the override alone; convert to
grid units, clamp into the min/max bounds, store `resizePosition` as the
updated size merged over the anchor position, and notify. -/
def onResizeHandler (p : Props) (st : GridItemState) (hasNode : Bool)
    (size : Size) (handle : ResizeHandleAxis) (position : Position)
    (handlerName : HandlerName) : GridItemState × Option ResizeNotification :=
  if !registered p handlerName then (st, none)
  else
    let updatedSize : UpdatedSize :=
      if hasNode then
        .corrected (resizeItemInDirection handle position size p.containerWidth)
      else .raw size
    let st1 :=
      match updatedSize with
      | .corrected box =>
        { st with resizing :=
            if handlerName = HandlerName.onResizeStop then none else some box }
      | .raw _ => st
    let wh := calcWH p updatedSize.width updatedSize.height p.x p.y handle
    let w := clampSize wh.1 (max p.minW 1) p.maxW
    let h := clampSize wh.2 p.minH p.maxH
    let st2 := { st1 with resizePosition :=
      match updatedSize with
      | .raw s => { position with width := s.width, height := s.height }
      | .corrected box => box }
    (st2, some { i := p.i, w := w, h := h, size := updatedSize, handle := handle })

/-- Embedding of `moveDroppingItem` (GridItem.jsx lines 155-188): with a
dropping position and a mounted node, either synthesize a drag-start (when
idle; `onDragStart` ignores the deltas the source passes along), or, when
already dragging and the dropping position moved, synthesize a drag-move
whose deltas are measured against the accumulated `dragPosition`. -/
def moveDroppingItem (p prevProps : Props) (st : GridItemState)
    (node : Option DomNode) :
    Except String (GridItemState × Option DragNotification) :=
  match p.droppingPosition with
  | none => .ok (st, none)
  | some dp =>
    match node with
    | none => .ok (st, none)
    | some n =>
      let prevDp := prevProps.droppingPosition.getD { left := 0, top := 0 }
      let shouldDrag :=
        (st.dragging && decide (dp.left ≠ prevDp.left)) || decide (dp.top ≠ prevDp.top)
      if !st.dragging then onDragStart p st n
      else if shouldDrag then
        onDrag p st n (dp.left - st.dragPosition.left) (dp.top - st.dragPosition.top)
      else .ok (st, none)

/-! Concrete fixtures used by the witnesses and counterexamples below.  The
grid parameters follow Scenario A of the spec: 12 columns, container width
1200, margins and padding (10, 10), row height 30. -/

/-- Sample props: Scenario A grid parameters, a 2×1 item at the origin, all
six callbacks registered, default size bounds. -/
def sampleProps : Props :=
  { i := "a", x := 0, y := 0, w := 2, h := 1,
    minW := 1, minH := 1, maxW := none, maxH := none,
    cols := 12, containerWidth := 1200, rowHeight := 30,
    margin := (10, 10), containerPadding := (10, 10), maxRows := 100,
    isBounded := false, transformScale := 1, droppingPosition := none,
    hasOnDragStart := true, hasOnDrag := true, hasOnDragStop := true,
    hasOnResizeStart := true, hasOnResize := true, hasOnResizeStop := true }

/-- Fully idle controller state. -/
def idleState : GridItemState :=
  { dragging := false, dragPosition := { left := 0, top := 0 }, resizing := none,
    resizePosition := { left := 0, top := 0, width := 0, height := 0 } }

/-- Dragging state whose accumulated position is the origin. -/
def stDrag0 : GridItemState :=
  { idleState with
    dragging := true }

/-- Positioned ancestor at the viewport origin with no scroll and client
height 1000. -/
def parent1000 : OffsetParent :=
  { rectLeft := 0, rectTop := 0, scrollLeft := 0, scrollTop := 0,
    clientHeight := 1000 }

/-- Positioned ancestor at the viewport origin with client height 100. -/
def parentSmall : OffsetParent :=
  { rectLeft := 0, rectTop := 0, scrollLeft := 0, scrollTop := 0,
    clientHeight := 100 }

/-- Node rendered 50px right and 50px below its positioned ancestor
(Scenario B geometry). -/
def node50 : DomNode :=
  { offsetParent := some parent1000, rectLeft := 50, rectTop := 50 }

/-- Node whose positioned ancestor has client height 100. -/
def nodeSmall : DomNode :=
  { offsetParent := some parentSmall, rectLeft := 0, rectTop := 0 }

/-- Node with no resolvable positioned ancestor. -/
def nodeDetached : DomNode :=
  { offsetParent := none, rectLeft := 50, rectTop := 50 }

/-- Anchor pixel box used by the resize fixtures. -/
def anchorBox : Position :=
  { left := 100, top := 100, width := 200, height := 200 }

/-- Proposed resize size used by the resize fixtures. -/
def sz150 : Size :=
  { width := 150, height := 150 }

/-! Helper lemmas about the clamps. -/

/-- Lower bound of `clamp`: the result never drops below the lower bound. -/
theorem clamp_lower_le (v lo hi : ℚ) : lo ≤ clamp v lo hi :=
  le_max_right _ _

/-- Upper bound of `clamp` under ordered bounds. -/
theorem clamp_le_upper (v lo hi : ℚ) (h : lo ≤ hi) : clamp v lo hi ≤ hi :=
  max_le (min_le_right _ _) h

/-- Applying the bounded-drag clamp to an already-clamped positive value
minus a positive padding strictly decreases it. -/
theorem clamp_drop_lt (x bound c : ℚ) (hc : 0 < c) (ht : 0 < clamp x 0 bound) :
    clamp (clamp x 0 bound - c) 0 bound < clamp x 0 bound := by
  unfold clamp at *
  rcases le_or_lt (min x bound) 0 with h | h
  · rw [max_eq_right h] at ht
    exact absurd ht (lt_irrefl 0)
  · rw [max_eq_left h.le] at ht ⊢
    have htB : min x bound ≤ bound := min_le_right x bound
    have h2 : min (min x bound - c) bound = min x bound - c :=
      min_eq_left (by linarith)
    rw [h2]
    exact max_lt (by linarith) ht

/-- Lower bound of the grid-unit clamp. -/
theorem le_clampSize (v lo : ℤ) (ub : Option ℤ) : lo ≤ clampSize v lo ub :=
  le_max_right _ _

/-- Boolean comparison against a possibly unbounded (`none` = `Infinity`)
upper grid bound. -/
def leOB (v : ℤ) : Option ℤ → Bool
  | none => true
  | some m => decide (v ≤ m)

/-- The grid-unit clamp respects the upper bound whenever the bounds are
ordered. -/
theorem clampSize_leOB (v lo : ℤ) (ub : Option ℤ)
    (h : ∀ m, ub = some m → lo ≤ m) : leOB (clampSize v lo ub) ub = true := by
  cases ub with
  | none => rfl
  | some m =>
    simp only [leOB, decide_eq_true_eq, clampSize]
    exact max_le (min_le_right _ _) (h m rfl)

/-! Claim theorems. -/

/-- Props with the `onResize` callback slot left empty. -/
def propsNoOnResize : Props :=
  { sampleProps with
    hasOnResize := false }

/-- Counterexample to C1.  A resize event received while the host has not
registered the corresponding callback leaves the controller state entirely
unchanged: with `onResize` unregistered, an `onResize` event with a node
reference returns the idle state untouched — the live resize override is
not set to the direction-corrected box and `resizePosition` is not updated
to the merged box, contradicting the claim that only the notification is
skipped. -/
theorem C1_counterexample :
    onResizeHandler propsNoOnResize idleState true sz150 ResizeHandleAxis.se
        anchorBox HandlerName.onResize = (idleState, none) ∧
      idleState.resizing ≠
        some (resizeItemInDirection ResizeHandleAxis.se anchorBox sz150
          propsNoOnResize.containerWidth) ∧
      idleState.resizePosition ≠
        { anchorBox with
          width := sz150.width, height := sz150.height } := by
  refine ⟨rfl, by simp [idleState], ?_⟩
  simp only [idleState, anchorBox, sz150]
  intro h
  exact absurd (congrArg Position.left h) (by norm_num)

/-- C1, amended: for every resize event received while the host has not
registered the corresponding callback, the handler returns immediately,
performing no internal state update (neither the live resize override nor
the anchor/resizePosition box changes) and emitting no notification. -/
theorem C1_missing_callback (p : Props) (st : GridItemState) (hasNode : Bool)
    (size : Size) (handle : ResizeHandleAxis) (position : Position)
    (hn : HandlerName) (h : registered p hn = false) :
    onResizeHandler p st hasNode size handle position hn = (st, none) := by
  simp [onResizeHandler, h]

/-- Witness for C1: the amended theorem applied at a concrete input. -/
theorem C1_witness :
    registered propsNoOnResize HandlerName.onResize = false ∧
      onResizeHandler propsNoOnResize idleState true sz150 ResizeHandleAxis.se
        anchorBox HandlerName.onResize = (idleState, none) :=
  ⟨rfl, C1_missing_callback propsNoOnResize idleState true sz150
    ResizeHandleAxis.se anchorBox HandlerName.onResize rfl⟩

/-- Props with the `onDrag` callback slot left empty. -/
def propsNoOnDrag : Props :=
  { sampleProps with
    hasOnDrag := false }

/-- Counterexample to C2.  Two events delivered while the corresponding
accumulator is idle that do not raise any invalid-sequence error: an
`onResize` event while not resizing (with its callback registered) is
processed normally and emits a notification — `onResizeHandler` contains no
idle check at all — and a drag-move while not dragging with no registered
`onDrag` callback returns silently before the idle check. -/
theorem C2_counterexample :
    (onResizeHandler sampleProps idleState true sz150 ResizeHandleAxis.se
        anchorBox HandlerName.onResize).2.isSome = true ∧
      onDrag propsNoOnDrag idleState node50 5 5 = .ok (idleState, none) :=
  ⟨rfl, rfl⟩

/-- C2, amended: a drag-move or drag-stop event delivered while the drag
accumulator is idle raises the invalid-sequence error provided the
corresponding callback is registered (with the callback absent the handler
returns silently before the check); resize events perform no idle check. -/
theorem C2_invalid_sequence (p : Props) (st : GridItemState) (node : DomNode)
    (deltaX deltaY : ℚ) (hidle : st.dragging = false) :
    (p.hasOnDrag = true →
      onDrag p st node deltaX deltaY = .error "onDrag called before onDragStart.") ∧
      (p.hasOnDragStop = true →
        onDragStop p st node = .error "onDragEnd called before onDragStart.") := by
  constructor <;> intro h <;> simp [onDrag, onDragStop, h, hidle]

/-- Witness for C2: the amended theorem applied at a concrete input. -/
theorem C2_witness :
    (sampleProps.hasOnDrag = true →
      onDrag sampleProps idleState node50 5 5 =
        .error "onDrag called before onDragStart.") ∧
      (sampleProps.hasOnDragStop = true →
        onDragStop sampleProps idleState node50 =
          .error "onDragEnd called before onDragStart.") :=
  C2_invalid_sequence sampleProps idleState node50 5 5 rfl

/-- C5 (confirmed).  With the `onDragStart` callback registered and a
resolvable positioned ancestor, a drag-start stores the node's rendered
offset relative to that ancestor — left and top are scaled rect differences
plus the ancestor's scroll offsets — transitions the accumulator to
dragging, and emits a start notification carrying that `newPosition`
together with its grid conversion. -/
theorem C5_onDragStart (p : Props) (st : GridItemState) (node : DomNode)
    (op : OffsetParent) (hcb : p.hasOnDragStart = true)
    (hop : node.offsetParent = some op) :
    onDragStart p st node =
      .ok ({ st with
             dragging := true,
             dragPosition :=
               { left := node.rectLeft / p.transformScale -
                   op.rectLeft / p.transformScale + op.scrollLeft,
                 top := node.rectTop / p.transformScale -
                   op.rectTop / p.transformScale + op.scrollTop } },
        some { i := p.i,
               x := (calcXY p
                 (node.rectTop / p.transformScale -
                   op.rectTop / p.transformScale + op.scrollTop)
                 (node.rectLeft / p.transformScale -
                   op.rectLeft / p.transformScale + op.scrollLeft) p.w p.h).1,
               y := (calcXY p
                 (node.rectTop / p.transformScale -
                   op.rectTop / p.transformScale + op.scrollTop)
                 (node.rectLeft / p.transformScale -
                   op.rectLeft / p.transformScale + op.scrollLeft) p.w p.h).2,
               newPosition :=
                 { left := node.rectLeft / p.transformScale -
                     op.rectLeft / p.transformScale + op.scrollLeft,
                   top := node.rectTop / p.transformScale -
                     op.rectTop / p.transformScale + op.scrollTop } }) := by
  simp [onDragStart, hcb, hop]

/-- Witness for C5, following Scenario B: a node whose bounding rect is
50px right and 50px below its positioned ancestor, with transformScale 1,
yields `newPosition = {left: 50, top: 50}` and a start notification with
the grid-converted coordinates (1, 1). -/
theorem C5_witness :
    onDragStart sampleProps idleState node50 =
      .ok ({ idleState with
             dragging := true,
             dragPosition := { left := 50, top := 50 } },
        some { i := "a", x := 1, y := 1,
               newPosition := { left := 50, top := 50 } }) := by
  rw [C5_onDragStart sampleProps idleState node50 parent1000 rfl rfl]
  norm_num [sampleProps, node50, parent1000, idleState, calcXY,
    calcGridColWidth, round_eq]

/-- C6 (confirmed).  A drag-start whose node has no resolvable positioned
ancestor is a no-op: no position computation is stored, no notification is
emitted, and the controller state is returned unchanged. -/
theorem C6_missing_offsetParent (p : Props) (st : GridItemState)
    (node : DomNode) (hop : node.offsetParent = none) :
    onDragStart p st node = .ok (st, none) := by
  cases hcb : p.hasOnDragStart <;> simp [onDragStart, hcb, hop]

/-- Witness for C6: the theorem applied at a concrete detached node. -/
theorem C6_witness :
    onDragStart sampleProps idleState nodeDetached = .ok (idleState, none) :=
  C6_missing_offsetParent sampleProps idleState nodeDetached rfl

/-- Dragging state whose accumulated position is `(20, 20)`. -/
def stDrag20 : GridItemState :=
  { idleState with
    dragging := true,
    dragPosition := { left := 20, top := 20 } }

/-- C8 (confirmed).  With the `onDragStop` callback registered, a drag-stop
received while dragging emits a stop notification whose `newPosition` is
the last accumulated pixel position, and leaves the accumulator idle with
the pixel position reset to `{left: 0, top: 0}`. -/
theorem C8_onDragStop (p : Props) (st : GridItemState) (node : DomNode)
    (hcb : p.hasOnDragStop = true) (hdrag : st.dragging = true) :
    onDragStop p st node =
      .ok ({ st with
             dragging := false,
             dragPosition := { left := 0, top := 0 } },
        some { i := p.i,
               x := (calcXY p st.dragPosition.top st.dragPosition.left p.w p.h).1,
               y := (calcXY p st.dragPosition.top st.dragPosition.left p.w p.h).2,
               newPosition := st.dragPosition }) := by
  simp [onDragStop, hcb, hdrag]

/-- Witness for C8: stopping a drag accumulated at `(20, 20)` notifies with
that position and returns the controller to the fully idle state. -/
theorem C8_witness :
    onDragStop sampleProps stDrag20 node50 =
      .ok (idleState,
        some { i := "a", x := 0, y := 1,
               newPosition := { left := 20, top := 20 } }) := by
  rw [C8_onDragStop sampleProps stDrag20 node50 rfl rfl]
  norm_num [sampleProps, stDrag20, idleState, calcXY, calcGridColWidth,
    round_eq]

/-- Render props carrying the dropping position `(20, 20)`. -/
def props3 : Props :=
  { sampleProps with
    droppingPosition := some { left := 20, top := 20 } }

/-- Previous render props, whose recorded dropping position was
`(10, 10)`. -/
def prev3 : Props :=
  { sampleProps with
    droppingPosition := some { left := 10, top := 10 } }

/-- Dragging state whose accumulated position is `(5, 5)` (as after a
drag-start that read a DOM offset different from the first dropping
position). -/
def st3 : GridItemState :=
  { idleState with
    dragging := true,
    dragPosition := { left := 5, top := 5 } }

/-- Counterexample to C3.  With the accumulator dragging at `(5, 5)`, the
previous dropping position `(10, 10)` and the new one `(20, 20)`, the
injector synthesizes a drag-move that stores and reports `(20, 20)`: the
delta actually used is `20 − 5 = 15`, measured against the accumulated
`dragPosition`.  The claimed delta `20 − 10 = 10` (new minus previously
recorded DroppingPosition) would have moved the accumulated position to
`15`, not `20`, so the claim fails at this input (second conjunct). -/
theorem C3_counterexample :
    moveDroppingItem props3 prev3 st3 (some node50) =
      .ok ({ st3 with
             dragPosition := { left := 20, top := 20 } },
        some { i := "a", x := 0, y := 1,
               newPosition := { left := 20, top := 20 } }) ∧
      st3.dragPosition.left + (20 - 10) ≠ (20 : ℚ) := by
  constructor
  · simp only [moveDroppingItem, props3, prev3, st3, idleState, node50,
      onDrag, sampleProps]
    norm_num [calcXY, calcGridColWidth, round_eq]
  · norm_num [st3, idleState]

/-- C3, amended: whenever a DroppingPosition is supplied on a render with a
mounted node, the drag accumulator is already dragging, and the
DroppingPosition differs from the previous render's, the injector
synthesizes a drag-move whose `(deltaX, deltaY)` equals the new
DroppingPosition's `(left, top)` minus the drag accumulator's current
`dragPosition` — which coincides with the previously recorded
DroppingPosition only when the previous synthetic move stored it
unclamped. -/
theorem C3_dropping_delta (p prev : Props) (st : GridItemState) (n : DomNode)
    (dp : DroppingPosition) (hdp : p.droppingPosition = some dp)
    (hdrag : st.dragging = true)
    (hchanged :
      dp.left ≠ (prev.droppingPosition.getD { left := 0, top := 0 }).left ∨
        dp.top ≠ (prev.droppingPosition.getD { left := 0, top := 0 }).top) :
    moveDroppingItem p prev st (some n) =
      onDrag p st n (dp.left - st.dragPosition.left)
        (dp.top - st.dragPosition.top) := by
  rcases hchanged with h | h <;>
    simp [moveDroppingItem, hdp, hdrag, h]

/-- Witness for C3: the amended theorem applied at the concrete fixtures,
with both deltas evaluating to 15. -/
theorem C3_witness :
    moveDroppingItem props3 prev3 st3 (some node50) =
      onDrag props3 st3 node50 15 15 := by
  rw [C3_dropping_delta props3 prev3 st3 node50
    { left := 20, top := 20 } rfl rfl (Or.inl (by norm_num [prev3, sampleProps]))]
  norm_num [st3, idleState]

/-- Bounded-mode props for a 2×10 item: its pixel height `10*30 + 9*10 =
390` exceeds the small ancestor's client height 100. -/
def props4 : Props :=
  { sampleProps with
    isBounded := true,
    h := 10 }

/-- Counterexample to C4.  In bounded mode with a resolvable offsetParent
whose client height (100) is smaller than the item's pixel height (390),
the drag-move clamp's lower bound wins: the stored position is `(0, 0)`,
and its top coordinate violates the claimed invariant `top ≤ clientHeight −
itemHeightPx = −290`. -/
theorem C4_counterexample :
    onDrag props4 stDrag0 nodeSmall 0 50 =
      .ok (stDrag0,
        some { i := "a", x := 0, y := 0,
               newPosition := { left := 0, top := 0 } }) ∧
      ¬(stDrag0.dragPosition.top ≤
          parentSmall.clientHeight -
            calcGridItemWHPx props4.h props4.rowHeight props4.margin.2) := by
  constructor
  · simp only [onDrag, props4, stDrag0, idleState, nodeSmall, parentSmall,
      sampleProps]
    norm_num [clamp, calcXY, calcGridColWidth, calcGridItemWHPx, round_eq,
      max_def, min_def]
  · norm_num [stDrag0, idleState, parentSmall, props4, sampleProps,
      calcGridItemWHPx]

/-- C4, amended: with bounded mode enabled, a resolvable offsetParent, the
`onDrag` callback registered, and an item whose pixel size does not exceed
the container in either direction (both boundaries nonnegative), every
drag-move stores a position satisfying `0 ≤ left ≤ containerWidthPx −
itemWidthPx` and `0 ≤ top ≤ clientHeight − itemHeightPx`, for any delta and
any previous accumulated position (hence any sequence of deltas). -/
theorem C4_bounded_containment (p : Props) (st : GridItemState)
    (node : DomNode) (op : OffsetParent) (deltaX deltaY : ℚ)
    (hb : p.isBounded = true) (hop : node.offsetParent = some op)
    (hcb : p.hasOnDrag = true) (hdrag : st.dragging = true)
    (hH : 0 ≤ op.clientHeight - calcGridItemWHPx p.h p.rowHeight p.margin.2)
    (hW : 0 ≤ p.containerWidth -
      calcGridItemWHPx p.w (calcGridColWidth p) p.margin.1) :
    ∃ st1 notif,
      onDrag p st node deltaX deltaY = .ok (st1, some notif) ∧
        0 ≤ st1.dragPosition.left ∧
        st1.dragPosition.left ≤
          p.containerWidth - calcGridItemWHPx p.w (calcGridColWidth p) p.margin.1 ∧
        0 ≤ st1.dragPosition.top ∧
        st1.dragPosition.top ≤
          op.clientHeight - calcGridItemWHPx p.h p.rowHeight p.margin.2 := by
  simp only [onDrag, hb, hop, hcb, hdrag, Bool.not_true, Bool.false_eq_true,
    if_false]
  refine ⟨_, _, rfl, ?_, ?_, ?_, ?_⟩
  · exact clamp_lower_le _ _ _
  · exact clamp_le_upper _ _ _ hW
  · exact clamp_lower_le _ _ _
  · exact clamp_le_upper _ _ _ hH

/-- Witness for C4: the amended theorem applied at a concrete bounded
configuration whose item fits inside the container. -/
theorem C4_witness :
    ∃ st1 notif,
      onDrag
          { sampleProps with
            isBounded := true } stDrag20 node50 100 100 =
        .ok (st1, some notif) ∧
        0 ≤ st1.dragPosition.left ∧
        st1.dragPosition.left ≤
          Props.containerWidth
              { sampleProps with
                isBounded := true } -
            calcGridItemWHPx 2
              (calcGridColWidth
                { sampleProps with
                  isBounded := true }) 10 ∧
        0 ≤ st1.dragPosition.top ∧
        st1.dragPosition.top ≤ parent1000.clientHeight - calcGridItemWHPx 1 30 10 :=
  C4_bounded_containment _ stDrag20 node50 parent1000 100 100 rfl rfl rfl rfl
    (by norm_num [parent1000, sampleProps, calcGridItemWHPx])
    (by norm_num [sampleProps, calcGridItemWHPx, calcGridColWidth])

/-- C7 (confirmed).  Every resize notification carries a grid width `w`
with `max(minW, 1) ≤ w ≤ maxW` and a grid height `h` with `minH ≤ h ≤
maxH` (given ordered bounds; an unbounded `maxW`/`maxH` — the JavaScript
`Infinity`, here `none` — imposes no upper cap), the grid-unit clamps being
applied to the grid conversion of the direction-resolved pixel size; and
the constraint defaults are `minW = minH = 1` and `maxW = maxH`
unbounded. -/
theorem C7_resize_bounds (p : Props) (st : GridItemState) (hasNode : Bool)
    (size : Size) (handle : ResizeHandleAxis) (position : Position)
    (hn : HandlerName) (notif : ResizeNotification)
    (hW : ∀ m, p.maxW = some m → max p.minW 1 ≤ m)
    (hH : ∀ m, p.maxH = some m → p.minH ≤ m)
    (hemit : (onResizeHandler p st hasNode size handle position hn).2 = some notif) :
    (max p.minW 1 ≤ notif.w ∧ leOB notif.w p.maxW = true ∧
      p.minH ≤ notif.h ∧ leOB notif.h p.maxH = true) ∧
      (defaultProps.minW = 1 ∧ defaultProps.minH = 1 ∧
        defaultProps.maxW = none ∧ defaultProps.maxH = none) := by
  cases hreg : registered p hn with
  | false =>
    have hnone : onResizeHandler p st hasNode size handle position hn = (st, none) := by
      simp [onResizeHandler, hreg]
    rw [hnone] at hemit
    exact absurd hemit (by simp)
  | true =>
    have hw : notif.w =
        clampSize (calcWH p (UpdatedSize.width (if hasNode then
          .corrected (resizeItemInDirection handle position size p.containerWidth)
          else .raw size)) (UpdatedSize.height (if hasNode then
          .corrected (resizeItemInDirection handle position size p.containerWidth)
          else .raw size)) p.x p.y handle).1 (max p.minW 1) p.maxW ∧
        notif.h =
        clampSize (calcWH p (UpdatedSize.width (if hasNode then
          .corrected (resizeItemInDirection handle position size p.containerWidth)
          else .raw size)) (UpdatedSize.height (if hasNode then
          .corrected (resizeItemInDirection handle position size p.containerWidth)
          else .raw size)) p.x p.y handle).2 p.minH p.maxH := by
      cases hasNode <;>
        · simp only [onResizeHandler, hreg, Bool.not_true, Bool.false_eq_true,
            if_false, if_true, Option.some.injEq] at hemit
          cases hemit
          exact ⟨rfl, rfl⟩
    refine ⟨⟨?_, ?_, ?_, ?_⟩, rfl, rfl, rfl, rfl⟩
    · rw [hw.1]; exact le_clampSize _ _ _
    · rw [hw.1]; exact clampSize_leOB _ _ _ hW
    · rw [hw.2]; exact le_clampSize _ _ _
    · rw [hw.2]; exact clampSize_leOB _ _ _ hH

/-- Props with finite size bounds `minW = 2, maxW = 4, minH = 1, maxH =
6`. -/
def propsBounds : Props :=
  { sampleProps with
    minW := 2, maxW := some 4, minH := 1, maxH := some 6 }

/-- Notification emitted by `onResizeHandler` at the C7 witness input. -/
def c7notif : ResizeNotification :=
  { i := "a", w := 2, h := 4,
    size := .corrected { left := 100, top := 100, width := 150, height := 150 },
    handle := ResizeHandleAxis.se }

/-- Witness for C7: the theorem applied at a concrete resize event under
finite ordered bounds, whose emitted notification is computed explicitly. -/
theorem C7_witness :
    (onResizeHandler propsBounds idleState true sz150 ResizeHandleAxis.se
        anchorBox HandlerName.onResize).2 = some c7notif ∧
      ((max propsBounds.minW 1 ≤ c7notif.w ∧
        leOB c7notif.w propsBounds.maxW = true ∧
        propsBounds.minH ≤ c7notif.h ∧
        leOB c7notif.h propsBounds.maxH = true) ∧
        (defaultProps.minW = 1 ∧ defaultProps.minH = 1 ∧
          defaultProps.maxW = none ∧ defaultProps.maxH = none)) := by
  have hemit : (onResizeHandler propsBounds idleState true sz150
      ResizeHandleAxis.se anchorBox HandlerName.onResize).2 = some c7notif := by
    simp only [onResizeHandler, registered, propsBounds, sampleProps, idleState]
    norm_num [resizeItemInDirection, isWestish, isNorthish, anchorBox, sz150,
      calcWH, calcGridColWidth, clampSize, c7notif, round_eq, max_def, min_def,
      UpdatedSize.width, UpdatedSize.height]
  exact ⟨hemit, C7_resize_bounds propsBounds idleState true sz150
    ResizeHandleAxis.se anchorBox HandlerName.onResize c7notif
    (by norm_num [propsBounds, sampleProps])
    (by norm_num [propsBounds, sampleProps]) hemit⟩

/-- Resize-in-progress state with a live override box. -/
def stResizing : GridItemState :=
  { idleState with
    resizing := some { left := 0, top := 0, width := 200, height := 200 } }

/-- C9 (confirmed).  A resize event whose callback is registered but whose
node reference is absent skips the direction-aware correction and the live
override update entirely: the notification is still emitted but its size
payload is the raw proposed size, the `resizing` override field is left
exactly as it was, and `resizePosition` is overwritten with the raw
proposed size merged over the anchor position. -/
theorem C9_no_node (p : Props) (st : GridItemState) (size : Size)
    (handle : ResizeHandleAxis) (position : Position) (hn : HandlerName)
    (hcb : registered p hn = true) :
    onResizeHandler p st false size handle position hn =
      ({ st with
         resizePosition :=
           { position with
             width := size.width, height := size.height } },
        some { i := p.i,
               w := clampSize (calcWH p size.width size.height p.x p.y handle).1
                 (max p.minW 1) p.maxW,
               h := clampSize (calcWH p size.width size.height p.x p.y handle).2
                 p.minH p.maxH,
               size := UpdatedSize.raw size, handle := handle }) := by
  simp [onResizeHandler, hcb, UpdatedSize.width, UpdatedSize.height]

/-- Witness for C9: with a live override box in place and no node
reference, the override survives unchanged, `resizePosition` becomes the
raw size merged over the anchor, and the notification carries the raw
size. -/
theorem C9_witness :
    onResizeHandler sampleProps stResizing false sz150 ResizeHandleAxis.se
        anchorBox HandlerName.onResize =
      ({ stResizing with
         resizePosition :=
           { left := 100, top := 100, width := 150, height := 150 } },
        some { i := "a", w := 2, h := 4, size := UpdatedSize.raw sz150,
               handle := ResizeHandleAxis.se }) := by
  rw [C9_no_node sampleProps stResizing sz150 ResizeHandleAxis.se anchorBox
    HandlerName.onResize rfl]
  norm_num [sampleProps, anchorBox, sz150, calcWH, calcGridColWidth,
    clampSize, round_eq, max_def, min_def]

/-- Bounded-mode props for the Scenario A 2×1 item (container padding
`(10, 10)` is positive). -/
def props10 : Props :=
  { sampleProps with
    isBounded := true }

/-- Counterexample to C10.  With positive container padding, a bounded
zero-delta drag-move from the accumulated position `(0, 0)` stores `(0, 0)`
again — the clamp floors the freshly padded value at 0 — so the state after
the move equals the state before it, and a second consecutive zero-delta
move therefore stores the identical position rather than a strictly
different one. -/
theorem C10_counterexample :
    (0 : ℚ) < props10.containerPadding.1 ∧
      (0 : ℚ) < props10.containerPadding.2 ∧
      onDrag props10 stDrag0 node50 0 0 =
        .ok (stDrag0,
          some { i := "a", x := 0, y := 0,
                 newPosition := { left := 0, top := 0 } }) := by
  refine ⟨by norm_num [props10, sampleProps], by norm_num [props10, sampleProps], ?_⟩
  simp only [onDrag, props10, stDrag0, idleState, node50, parent1000,
    sampleProps]
  norm_num [clamp, calcXY, calcGridColWidth, calcGridItemWHPx, round_eq,
    max_def, min_def]

/-- C10, amended: in bounded mode with a resolvable offsetParent (and the
`onDrag` callback registered while dragging), each drag-move stores `top =
clamp(previousTop + deltaY − containerPadding.y, 0, clientHeight −
itemHeightPx)` and `left = clamp(previousLeft + deltaX − containerPadding.x,
0, containerWidthPx − itemWidthPx)`; the padding is subtracted afresh on
every move, so with positive padding a subsequent zero-delta move strictly
decreases the stored coordinate whenever it is not already pinned at the
lower clamp boundary 0 (at which it is a fixed point). -/
theorem C10_bounded_update (p : Props) (st : GridItemState) (node : DomNode)
    (op : OffsetParent) (deltaX deltaY : ℚ)
    (hb : p.isBounded = true) (hop : node.offsetParent = some op)
    (hcb : p.hasOnDrag = true) (hdrag : st.dragging = true) :
    ∃ st1 n1,
      onDrag p st node deltaX deltaY = .ok (st1, some n1) ∧
        st1.dragPosition.top =
          clamp (st.dragPosition.top + deltaY - p.containerPadding.2) 0
            (op.clientHeight - calcGridItemWHPx p.h p.rowHeight p.margin.2) ∧
        st1.dragPosition.left =
          clamp (st.dragPosition.left + deltaX - p.containerPadding.1) 0
            (p.containerWidth -
              calcGridItemWHPx p.w (calcGridColWidth p) p.margin.1) ∧
        (0 < p.containerPadding.2 → 0 < st1.dragPosition.top →
          ∃ st2 n2,
            onDrag p st1 node 0 0 = .ok (st2, some n2) ∧
              st2.dragPosition.top < st1.dragPosition.top) := by
  simp only [onDrag, hb, hop, hcb, hdrag, Bool.not_true, Bool.false_eq_true,
    if_false]
  refine ⟨_, _, rfl, rfl, rfl, ?_⟩
  intro hpad hpos
  refine ⟨_, _, rfl, ?_⟩
  simp only
  rw [add_zero]
  exact clamp_drop_lt _ _ _ hpad hpos

/-- Witness for C10: the amended theorem applied at a concrete bounded
drag-move. -/
theorem C10_witness :
    ∃ st1 n1,
      onDrag props10 stDrag20 node50 100 100 = .ok (st1, some n1) ∧
        st1.dragPosition.top =
          clamp (stDrag20.dragPosition.top + 100 - props10.containerPadding.2) 0
            (parent1000.clientHeight -
              calcGridItemWHPx props10.h props10.rowHeight props10.margin.2) ∧
        st1.dragPosition.left =
          clamp (stDrag20.dragPosition.left + 100 - props10.containerPadding.1) 0
            (props10.containerWidth -
              calcGridItemWHPx props10.w (calcGridColWidth props10)
                props10.margin.1) ∧
        (0 < props10.containerPadding.2 → 0 < st1.dragPosition.top →
          ∃ st2 n2,
            onDrag props10 st1 node50 0 0 = .ok (st2, some n2) ∧
              st2.dragPosition.top < st1.dragPosition.top) :=
  C10_bounded_update props10 stDrag20 node50 parent1000 100 100 rfl rfl rfl rfl

end GridItem19
